import Mathlib

/-!
Shallow embedding of the web-style-extractor core (src/style_extractor.py) in Lean 4.

Conventions used throughout:
* Python strings are modelled as `String` / `List Char`; the source only ever
  feeds ASCII CSS text through the scanners, and all character classes
  (`\s`, `\d`, `\w`, hex digits) are modelled by their ASCII meaning.
* Python regular-expression `findall` scans are modelled by hand-written
  scanners.  Each scanner comes with a comment explaining why the
  deterministic scan is equivalent to the (backtracking) regex used in the
  source.  Scanners take an explicit fuel argument (instantiated with the
  input length) so that they are structurally recursive and evaluate by
  kernel reduction; one unit of fuel is spent per position advanced, and a
  scan always advances by at least one character, so fuel equal to the
  input length is sufficient.
* Python floats are modelled by rationals (`ℚ`); float literals such as
  `0.37` and `0.4` are read as their decimal values.  `int(x)` is
  truncation toward zero, `f"{x:.Nf}"` formatting rounds half-to-even.
* Python exceptions are modelled by `Option`/`Except`.
-/

namespace StyleExtractor

attribute [local semireducible] Rat.add Rat.mul Rat.sub Rat.inv

/-- ASCII whitespace: the characters matched by `str.strip()` and by the
regex class `\s` on the ASCII inputs this program processes. -/
def isPySpace (c : Char) : Bool :=
  c == ' ' || c == '\t' || c == '\n' || c == '\r' || c == '\x0b' || c == '\x0c'

/-- ASCII decimal digit, the regex class `\d` on ASCII text. -/
def isAsciiDigit (c : Char) : Bool := '0' ≤ c && c ≤ '9'

/-- Hexadecimal digit `[0-9a-fA-F]`. -/
def isHexDig (c : Char) : Bool :=
  isAsciiDigit c || ('a' ≤ c && c ≤ 'f') || ('A' ≤ c && c ≤ 'F')

/-- ASCII word character, the regex class `\w` on ASCII text (used for the
`\b` word boundary in the hex-colour pattern). -/
def isWordChar (c : Char) : Bool :=
  isAsciiDigit c || ('a' ≤ c && c ≤ 'z') || ('A' ≤ c && c ≤ 'Z') || c == '_'

/-- ASCII model of Python `str.lower()` applied to one character. -/
def pyToLower (c : Char) : Char :=
  match c with
  | 'A' => 'a' | 'B' => 'b' | 'C' => 'c' | 'D' => 'd' | 'E' => 'e' | 'F' => 'f' | 'G' => 'g'
  | 'H' => 'h' | 'I' => 'i' | 'J' => 'j' | 'K' => 'k' | 'L' => 'l' | 'M' => 'm' | 'N' => 'n'
  | 'O' => 'o' | 'P' => 'p' | 'Q' => 'q' | 'R' => 'r' | 'S' => 's' | 'T' => 't' | 'U' => 'u'
  | 'V' => 'v' | 'W' => 'w' | 'X' => 'x' | 'Y' => 'y' | 'Z' => 'z'
  | c => c

/-- Python `s.lower()` on a whole string (ASCII model). -/
def lowerStr (s : String) : String := String.mk (s.data.map pyToLower)

/-- Python `s.strip(chars)`: drop characters satisfying `p` from both ends. -/
def pyStripWith (p : Char → Bool) (l : List Char) : List Char :=
  ((l.dropWhile p).reverse.dropWhile p).reverse

/-- Python `s.strip()` (whitespace). -/
def pyStrip (l : List Char) : List Char := pyStripWith isPySpace l

/-- A single or double quote, the character set of `strip('"\x27')`. -/
def isQuoteChar (c : Char) : Bool := c == '"' || c == '\''

/-- Value of a decimal digit character. -/
def digitVal (c : Char) : Nat := c.toNat - 48

/-- Value of a hexadecimal digit character. -/
def hexDigitVal (c : Char) : Nat :=
  if isAsciiDigit c then c.toNat - 48
  else if 'a' ≤ c && c ≤ 'f' then c.toNat - 87
  else c.toNat - 55

/-- Python `int(run)` on a run of decimal digits. -/
def natOfDecDigits (l : List Char) : Nat := l.foldl (fun a c => a * 10 + digitVal c) 0

/-- Lowercase hexadecimal digit for a value below 16 (as printed by `%x`). -/
def hexDigitChar : Nat → Char
  | 0 => '0' | 1 => '1' | 2 => '2' | 3 => '3' | 4 => '4' | 5 => '5' | 6 => '6' | 7 => '7'
  | 8 => '8' | 9 => '9' | 10 => 'a' | 11 => 'b' | 12 => 'c' | 13 => 'd' | 14 => 'e' | 15 => 'f'
  | _ => '*'

/-- Fuelled lowercase-hex rendering of a natural number (`%x`); division by 16
shrinks the argument, so fuel `n + 1` always suffices. -/
def hexReprF : Nat → Nat → List Char
  | 0, _ => []
  | fuel + 1, n =>
    if n < 16 then [hexDigitChar n] else hexReprF fuel (n / 16) ++ [hexDigitChar (n % 16)]

/-- Python `"%x" % n` for a natural number. -/
def hexRepr (n : Nat) : List Char := hexReprF (n + 1) n

/-- Fuelled decimal rendering of a natural number. -/
def decReprF : Nat → Nat → List Char
  | 0, _ => []
  | fuel + 1, n =>
    if n < 10 then [hexDigitChar n] else decReprF fuel (n / 10) ++ [hexDigitChar (n % 10)]

/-- Decimal rendering of a natural number. -/
def decRepr (n : Nat) : List Char := decReprF (n + 1) n

/-- Python `f"{n:02x}"` for a natural number: lowercase hex, zero-padded to
at least two digits. -/
def pad2x (n : Nat) : List Char :=
  let h := hexRepr n
  if h.length < 2 then '0' :: h else h

/-- Python `f"{i:02x}"` for an `int` that may be negative: the sign is
printed first and the zero padding counts it toward the field width, so a
negative value keeps its natural digits (`-5` prints as `-5`, `-255` as
`-ff`). -/
def intPad2x (i : Int) : List Char :=
  if i < 0 then '-' :: hexRepr i.natAbs else pad2x i.toNat

/-! ### Python `int(s, 16)`

`int(s, 16)` strips surrounding whitespace, accepts one optional sign, an
optional `0x`/`0X` prefix (optionally followed by one underscore), and hex
digits with single underscores allowed between digits. -/

/-- Continuation of a hex-digit parse: after a first digit, repeatedly accept
a digit or an underscore followed by a digit.  Fuel bounds the number of
characters consumed. -/
def hexDigitsRestF : Nat → Nat → List Char → Option Nat
  | _, acc, [] => some acc
  | fuel + 1, acc, '_' :: c :: rest =>
    if isHexDig c then hexDigitsRestF fuel (acc * 16 + hexDigitVal c) rest else none
  | _ + 1, _, '_' :: [] => none
  | fuel + 1, acc, c :: rest =>
    if isHexDig c then hexDigitsRestF fuel (acc * 16 + hexDigitVal c) rest else none
  | 0, _, _ => none

/-- Parse an entire character list as hex digits with underscore separators;
the first character must be a digit and the list must be fully consumed. -/
def parseHexBody (l : List Char) : Option Nat :=
  match l with
  | c :: rest => if isHexDig c then hexDigitsRestF rest.length (hexDigitVal c) rest else none
  | [] => none

/-- Parse the unsigned part of `int(s, 16)`: an optional `0x`/`0X` prefix
(optionally followed by a single underscore) and then the digit body. -/
def parseHexToken (l : List Char) : Option Nat :=
  match l with
  | '0' :: x :: rest =>
    if x == 'x' || x == 'X' then
      match rest with
      | '_' :: rest2 => parseHexBody rest2
      | _ => parseHexBody rest
    else parseHexBody ('0' :: x :: rest)
  | _ => parseHexBody l

/-- Python `int(s, 16)` on ASCII text, returning `none` where Python raises
`ValueError`. -/
def pyIntHex (l : List Char) : Option Int :=
  let l := pyStrip l
  match l with
  | '+' :: rest => (parseHexToken rest).map (fun n => (n : Int))
  | '-' :: rest => (parseHexToken rest).map (fun n => -(n : Int))
  | _ => (parseHexToken l).map (fun n => (n : Int))

/-- Python slice `l[i : i+2]`. -/
def pySlice2 (l : List Char) (i : Nat) : List Char := (l.drop i).take 2

/-! ### Rational models of Python float operations -/

/-- Python `int(x)`: truncation toward zero. -/
def ratTrunc (q : ℚ) : Int := if q < 0 then -(Rat.floor (-q)) else Rat.floor q

/-- Python `min` on two ints (spelled out so it evaluates by kernel
reduction). -/
def pyMinI (a b : Int) : Int := if a ≤ b then a else b

/-- Python `max` on two ints. -/
def pyMaxI (a b : Int) : Int := if a ≤ b then b else a

/-- Python `min` on two rationals. -/
def pyMinQ (a b : ℚ) : ℚ := if a ≤ b then a else b

/-- Python `max` on two rationals. -/
def pyMaxQ (a b : ℚ) : ℚ := if a ≤ b then b else a

/-- Absolute value of a rational, spelled out for kernel reduction. -/
def ratAbs (q : ℚ) : ℚ := if q < 0 then -q else q

/-- Round half to even, the rounding used by Python float formatting. -/
def rhe (q : ℚ) : Int :=
  let f := Rat.floor q
  if q - f < 1/2 then f else if q - f > 1/2 then f + 1
  else if f % 2 = 0 then f else f + 1

/-- Left-pad a digit list with zeros to a given width. -/
def padZeros (d : Nat) (l : List Char) : List Char :=
  List.replicate (d - l.length) '0' ++ l

/-- Python `f"{x:.df}"` fixed-point formatting of a rational: round the
scaled magnitude half-to-even and print sign, integer part and `d` fraction
digits (small negative values print as `-0.0`, as in Python). -/
def formatFixed (q : ℚ) (d : Nat) : String :=
  let n := (rhe (ratAbs q * ((10 : ℚ) ^ d))).toNat
  let ip := n / 10 ^ d
  let fp := n % 10 ^ d
  String.mk ((if q < 0 then ['-'] else []) ++ decRepr ip ++
    (if d == 0 then [] else '.' :: padZeros d (decRepr fp)))

/-! ### ColorConverter (src/style_extractor.py lines 41-77) -/

/-- `ColorConverter.hex_to_rgb`: strip leading `#`, double each digit of a
3-character form, then convert the three two-character slices with
`int(_, 16)`.  Returns `none` where Python raises (caught by the caller). -/
def hex_to_rgb (s : String) : Option (Int × Int × Int) :=
  let h := s.data.dropWhile (· == '#')
  let h := if h.length == 3 then h.flatMap (fun c => [c, c]) else h
  match pyIntHex (pySlice2 h 0), pyIntHex (pySlice2 h 2), pyIntHex (pySlice2 h 4) with
  | some r, some g, some b => some (r, g, b)
  | _, _, _ => none

/-- `colorsys.rgb_to_hls` over rationals, returning `(h, l, s)`.  `none`
models the `ZeroDivisionError` Python raises when the saturation denominator
is zero (possible only for out-of-range inputs); `x % 1.0` is modelled by
`x - floor x`. -/
def rgb_to_hls (r g b : ℚ) : Option (ℚ × ℚ × ℚ) :=
  let maxc := pyMaxQ r (pyMaxQ g b)
  let minc := pyMinQ r (pyMinQ g b)
  let sumc := maxc + minc
  let rangec := maxc - minc
  let l := sumc / 2
  if minc = maxc then some (0, l, 0)
  else
    let sOpt : Option ℚ :=
      if l ≤ 1/2 then (if sumc = 0 then none else some (rangec / sumc))
      else (if 2 - maxc - minc = 0 then none else some (rangec / (2 - maxc - minc)))
    sOpt.map (fun s =>
      let rc := (maxc - r) / rangec
      let gc := (maxc - g) / rangec
      let bc := (maxc - b) / rangec
      let h := if r = maxc then bc - gc else if g = maxc then 2 + rc - bc else 4 + gc - rc
      (h / 6 - Rat.floor (h / 6), l, s))

/-- `ColorConverter.rgb_to_oklch`: normalise channels to `[0,1]`, decompose
into HLS, and return `(lightness*100, saturation*0.37, hue*360)`. -/
def rgb_to_oklch (r g b : Int) : Option (ℚ × ℚ × ℚ) :=
  (rgb_to_hls ((r : ℚ) / 255) ((g : ℚ) / 255) ((b : ℚ) / 255)).map
    (fun t => (t.2.1 * 100, t.2.2 * (37/100), t.1 * 360))

/-- `ColorConverter.hex_to_oklch_string`: format the OKLCH approximation as
`oklch(L% C Hdeg)` with 1, 3 and 1 decimal digits; any exception inside the
`try` block yields the fixed fallback string annotated with the raw input. -/
def hex_to_oklch_string (s : String) : String :=
  match hex_to_rgb s with
  | none => "oklch(50% 0.1 0deg)  /* fallback for " ++ s ++ " */"
  | some (r, g, b) =>
    match rgb_to_oklch r g b with
    | none => "oklch(50% 0.1 0deg)  /* fallback for " ++ s ++ " */"
    | some (l, c, h) =>
      "oklch(" ++ formatFixed l 1 ++ "% " ++ formatFixed c 3 ++ " " ++ formatFixed h 1 ++ "deg)"

/-! ### Hex-colour scan (extract_colors, lines 128-146)

The pattern `#(?:[0-9a-fA-F]{3,4}){1,2}\b` matches `#` followed by 3, 4, 6,
7 or 8 hex digits and a word boundary.  Because hex digits are word
characters, the quantified group can only stop at the end of the maximal
digit run, so a match at a `#` exists iff the maximal run of hex digits
after it has length 3, 4, 6, 7 or 8 and the following character (if any) is
not a word character.  On failure the scan advances one position; no `#`
occurs inside a digit run, so skipping the run is equivalent. -/

/-- Digit-run lengths accepted by `(?:[0-9a-fA-F]{3,4}){1,2}`. -/
def hexLenOk (n : Nat) : Bool := n == 3 || n == 4 || n == 6 || n == 7 || n == 8

/-- Regex `\b` after a digit run: end of input or a non-word character. -/
def wordBoundary : List Char → Bool
  | [] => true
  | c :: _ => !(isWordChar c)

/-- Fuelled scan for all hex-colour literal matches. -/
def hexFindAllF : Nat → List Char → List (List Char)
  | 0, _ => []
  | _ + 1, [] => []
  | fuel + 1, c :: rest =>
    if c = '#' then
      let n := (rest.takeWhile isHexDig).length
      if hexLenOk n && wordBoundary (rest.drop n) then
        ('#' :: rest.take n) :: hexFindAllF fuel (rest.drop n)
      else
        hexFindAllF fuel rest
    else
      hexFindAllF fuel rest

/-- `re.findall(hex_pattern, css_text)`. -/
def hexFindAll (l : List Char) : List (List Char) := hexFindAllF l.length l

/-- Double characters 1-3 of a 4-character match `#abc` (Python builds
`f"#{c1}{c1}{c2}{c2}{c3}{c3}"`). -/
def expandShortHex : List Char → List Char
  | [_, a, b, c] => ['#', a, a, b, b, c, c]
  | s => s

/-- Normalisation applied to each raw hex match (lines 137-140): expand the
4-character shorthand, then lowercase.  Longer forms (4- and 8-digit hex
with alpha) are lowercased unchanged. -/
def normalizeHexMatch (s : List Char) : List Char :=
  (if s.length == 4 then expandShortHex s else s).map pyToLower

/-! ### Parser combinators for the remaining regex scans -/

/-- Match a literal character sequence, returning the rest. -/
def pLit : List Char → List Char → Option (List Char)
  | [], l => some l
  | _ :: _, [] => none
  | p :: ps, c :: cs => if c == p then pLit ps cs else none

/-- Match a literal sequence case-insensitively (`re.IGNORECASE`). -/
def pLitCI : List Char → List Char → Option (List Char)
  | [], l => some l
  | _ :: _, [] => none
  | p :: ps, c :: cs => if pyToLower c == pyToLower p then pLitCI ps cs else none

/-- Match one given character. -/
def pChar (ch : Char) : List Char → Option (List Char)
  | c :: cs => if c == ch then some cs else none
  | [] => none

/-- Greedy `p+`: at least one character satisfying `p`. -/
def takeWhile1 (p : Char → Bool) (l : List Char) : Option (List Char × List Char) :=
  let t := l.takeWhile p
  if t.isEmpty then none else some (t, l.dropWhile p)

/-- Generic fuelled `re.findall`: at each position try the matcher (which
returns the matched/captured text and the remainder after the whole match);
on success continue after the match, otherwise advance one character. -/
def findAllF (m : List Char → Option (List Char × List Char)) :
    Nat → List Char → List (List Char)
  | 0, _ => []
  | _ + 1, [] => []
  | fuel + 1, c :: rest =>
    match m (c :: rest) with
    | some (txt, after) => txt :: findAllF m fuel after
    | none => findAllF m fuel rest

/-! ### rgb()/rgba() scan (lines 130, 133, 142-146)

Pattern `rgba?\(\s*\d+\s*,\s*\d+\s*,\s*\d+(?:,\s*[\d.]+)?\)`.  All adjacent
pieces use disjoint character classes, so greedy matching is deterministic;
the optional alpha group must be taken exactly when a comma follows the
third digit run. -/

/-- Try to match the rgb/rgba pattern at the head of the input, returning
the remainder after the match. -/
def matchRgbAt (l : List Char) : Option (List Char) := do
  let l1 ← pLit "rgb".data l
  let l2 := match pChar 'a' l1 with | some r => r | none => l1
  let l3 ← pChar '(' l2
  let l4 := l3.dropWhile isPySpace
  let (_, l5) ← takeWhile1 isAsciiDigit l4
  let l6 := l5.dropWhile isPySpace
  let l7 ← pChar ',' l6
  let l8 := l7.dropWhile isPySpace
  let (_, l9) ← takeWhile1 isAsciiDigit l8
  let l10 := l9.dropWhile isPySpace
  let l11 ← pChar ',' l10
  let l12 := l11.dropWhile isPySpace
  let (_, l13) ← takeWhile1 isAsciiDigit l12
  match pChar ',' l13 with
  | some l14 =>
    let l15 := l14.dropWhile isPySpace
    let (_, l16) ← takeWhile1 (fun c => isAsciiDigit c || c == '.') l15
    pChar ')' l16
  | none => pChar ')' l13

/-- rgb matcher packaged for `findAllF` (matched text recovered from the
consumed length). -/
def matchRgbTxt (l : List Char) : Option (List Char × List Char) :=
  (matchRgbAt l).map (fun after => (l.take (l.length - after.length), after))

/-- `re.findall(rgb_pattern, css_text)`. -/
def rgbFindAll (l : List Char) : List (List Char) := findAllF matchRgbTxt l.length l

/-- Fuelled scan for the runs of `re.findall(r'\d+', s)`. -/
def decRunsF : Nat → List Char → List (List Char)
  | 0, _ => []
  | _ + 1, [] => []
  | fuel + 1, c :: rest =>
    if isAsciiDigit c then
      ((c :: rest).takeWhile isAsciiDigit) :: decRunsF fuel ((c :: rest).dropWhile isAsciiDigit)
    else decRunsF fuel rest

/-- `re.findall(r'\d+', s)`. -/
def decRuns (l : List Char) : List (List Char) := decRunsF l.length l

/-- Lines 142-146: extract all numbers from an rgb/rgba match and, when at
least three are present, format the first three with `%02x` each. -/
def rgbLiteralToHex (m : List Char) : Option String :=
  match (decRuns m).map natOfDecDigits with
  | n1 :: n2 :: n3 :: _ => some (String.mk ('#' :: (pad2x n1 ++ pad2x n2 ++ pad2x n3)))
  | _ => none

/-- Lines 169-172: an image-derived colour formatted with `%02x` per
channel. -/
def imageColorHex (t : Nat × Nat × Nat) : String :=
  String.mk ('#' :: (pad2x t.1 ++ pad2x t.2.1 ++ pad2x t.2.2))

/-- Lines 176-181: deduplication keeping the first occurrence, with the
`seen` set carried as an accumulator. -/
def dedupColorsAux : List String → List String → List String
  | _, [] => []
  | seen, x :: rest =>
    if x ∈ seen then dedupColorsAux seen rest else x :: dedupColorsAux (x :: seen) rest

/-- `WebStyleExtractor.extract_colors` (lines 128-183).  The optional image
is modelled by the list of its most frequent sampled colours (PIL RGB
triples), of which the code keeps the top three; a failed image fetch or
decode contributes the empty list.  Merge order: hex literals, rgb
literals, image colours; deduplicate keeping first occurrence; truncate to
ten. -/
def extract_colors (css : String) (imgColors : List (Nat × Nat × Nat)) : List String :=
  let hexs := (hexFindAll css.data).map (fun m => String.mk (normalizeHexMatch m))
  let rgbs := (rgbFindAll css.data).filterMap rgbLiteralToHex
  let imgs := (imgColors.take 3).map imageColorHex
  (dedupColorsAux [] (hexs ++ rgbs ++ imgs)).take 10

/-! ### Font scan (extract_fonts, lines 185-210)

The in-repository fallback scan uses
`re.findall(r'font-family\s*:\s*([^;]+)', css, re.IGNORECASE)`.  The value
group `([^;]+)` is preceded by greedy `\s*` and whitespace is itself not
`;`, so when the character after the whitespace run is `;` (or the end of
input) the engine backtracks one step and the captured group is the last
whitespace character alone; otherwise the group is the maximal run of
non-`;` characters after the whitespace.  The primary path of
`extract_fonts` delegates locating declaration values to the external
`cssutils` parser and then applies the identical split/strip/unquote
pipeline (lines 194 and 200 are the same expression); the embedding locates
values with the in-repository scan. -/

/-- Match one `font-family` declaration at the head of the input, returning
the captured value group and the remainder after the match. -/
def matchFontAt (l : List Char) : Option (List Char × List Char) := do
  let l1 ← pLitCI "font-family".data l
  let l2 := l1.dropWhile isPySpace
  let l3 ← pChar ':' l2
  let ws := l3.takeWhile isPySpace
  let rest := l3.dropWhile isPySpace
  let valRun := rest.takeWhile (· != ';')
  if valRun.isEmpty then
    match ws.reverse with
    | w :: _ => some ([w], rest)
    | [] => none
  else
    some (valRun, rest.dropWhile (· != ';'))

/-- `re.findall(font_pattern, css_text, re.IGNORECASE)` (captured groups). -/
def fontFindAll (l : List Char) : List (List Char) := findAllF matchFontAt l.length l

/-- Line 194/200: split a declaration value on commas, trim whitespace and
strip surrounding quotes from each token. -/
def fontTokens (v : List Char) : List (List Char) :=
  (v.splitOn ',').map (fun t => pyStripWith isQuoteChar (pyStrip t))

/-- Lines 203-208: keep non-empty fonts not seen before, preserving order. -/
def dedupFontsAux : List String → List String → List String
  | _, [] => []
  | seen, f :: rest =>
    if f ≠ "" ∧ f ∉ seen then f :: dedupFontsAux (f :: seen) rest
    else dedupFontsAux seen rest

/-- `WebStyleExtractor.extract_fonts` (lines 185-210): locate every
`font-family` declaration value, split/trim/unquote, drop empties,
deduplicate case-sensitively keeping first occurrence, truncate to five. -/
def extract_fonts (css : String) : List String :=
  let fonts := (fontFindAll css.data).flatMap (fun v => (fontTokens v).map String.mk)
  (dedupFontsAux [] fonts).take 5

/-! ### Custom-property scan (extract_css_custom_properties, lines 212-227)

Pattern `--([a-zA-Z0-9-_]+)\s*:\s*([^;}]+)`: like the font value group, the
value capture backtracks to a single whitespace character when the run
after the whitespace is empty. -/

/-- Character class `[a-zA-Z0-9-_]` of a custom-property name. -/
def isPropNameChar (c : Char) : Bool :=
  isAsciiDigit c || ('a' ≤ c && c ≤ 'z') || ('A' ≤ c && c ≤ 'Z') || c == '-' || c == '_'

/-- Match one custom-property declaration, returning name group, value
group, and the remainder after the match. -/
def matchCustomPropAt (l : List Char) : Option ((List Char × List Char) × List Char) := do
  let l1 ← pLit "--".data l
  let (name, l2) ← takeWhile1 isPropNameChar l1
  let l3 := l2.dropWhile isPySpace
  let l4 ← pChar ':' l3
  let ws := l4.takeWhile isPySpace
  let rest := l4.dropWhile isPySpace
  let valRun := rest.takeWhile (fun c => c != ';' && c != '}')
  if valRun.isEmpty then
    match ws.reverse with
    | w :: _ => some ((name, [w]), rest)
    | [] => none
  else
    some ((name, valRun), rest.dropWhile (fun c => c != ';' && c != '}'))

/-- Fuelled scan collecting all custom-property (name, value) groups. -/
def customPropFindAllF : Nat → List Char → List (List Char × List Char)
  | 0, _ => []
  | _ + 1, [] => []
  | fuel + 1, c :: rest =>
    match matchCustomPropAt (c :: rest) with
    | some (nv, after) => nv :: customPropFindAllF fuel after
    | none => customPropFindAllF fuel rest

/-- Python dict assignment `d[k] = v`: overwrite in place if the key exists
(keeping its original position), else append. -/
def upsert (k v : String) : List (String × String) → List (String × String)
  | [] => [(k, v)]
  | (k', v') :: rest => if k' = k then (k, v) :: rest else (k', v') :: upsert k v rest

/-- `WebStyleExtractor.extract_css_custom_properties` (lines 212-227): for
each match store `--name ↦ value.strip().rstrip(';')`, later declarations
overwriting earlier ones. -/
def extract_css_custom_properties (css : String) : List (String × String) :=
  (customPropFindAllF css.data.length css.data).foldl
    (fun m nv =>
      upsert ("--" ++ String.mk nv.1)
        (String.mk ((pyStrip nv.2).reverse.dropWhile (· == ';') |>.reverse)) m)
    []

/-! ### Modern-feature detection (detect_modern_css_features, lines 229-260)

Each category is a separate `findall`.  The patterns
`@container[^{]*{[^}]*}` and `&\s*[^{]*{[^}]*}` are modelled by: literal,
skip to the first `{` (whitespace is not `{`, so the leading `\s*` of the
nesting pattern is absorbed by `[^{]*`), then skip to the first `}`.
`:has\([^)]*\)` and the function-call patterns skip to the first `)`.  In
every case the skipped classes exclude the required closing character, so
greedy matching is deterministic. -/

/-- Match `lit[^o]*o[^c]*c` for open/close characters `o`, `c`, returning
the full matched text and the remainder. -/
def matchLitBlock (lit : List Char) (openC closeC : Char) (l : List Char) :
    Option (List Char × List Char) := do
  let l1 ← pLit lit l
  let mid := l1.takeWhile (· != openC)
  let l2 := l1.dropWhile (· != openC)
  let l3 ← pChar openC l2
  let inner := l3.takeWhile (· != closeC)
  let l4 := l3.dropWhile (· != closeC)
  let l5 ← pChar closeC l4
  some (lit ++ mid ++ openC :: (inner ++ [closeC]), l5)

/-- Match `lit[^c]*c` (a function call `name(...)`), returning the matched
text and the remainder. -/
def matchToClose (lit : List Char) (closeC : Char) (l : List Char) :
    Option (List Char × List Char) := do
  let l1 ← pLit lit l
  let inner := l1.takeWhile (· != closeC)
  let l2 := l1.dropWhile (· != closeC)
  let l3 ← pChar closeC l2
  some (lit ++ (inner ++ [closeC]), l3)

/-- Alternation `(?:clamp|min|max)\([^)]*\)`: branches tried left to right
(their literals have pairwise incompatible prefixes, so at most one can
start at a given position). -/
def matchFluidAt (l : List Char) : Option (List Char × List Char) :=
  match matchToClose "clamp(".data ')' l with
  | some r => some r
  | none =>
    match matchToClose "min(".data ')' l with
    | some r => some r
    | none => matchToClose "max(".data ')' l

/-- Alternation `(?:oklch|lch|lab|color)\([^)]*\)`. -/
def matchColorFnAt (l : List Char) : Option (List Char × List Char) :=
  match matchToClose "oklch(".data ')' l with
  | some r => some r
  | none =>
    match matchToClose "lch(".data ')' l with
    | some r => some r
    | none =>
      match matchToClose "lab(".data ')' l with
      | some r => some r
      | none => matchToClose "color(".data ')' l

/-- `WebStyleExtractor.detect_modern_css_features` (lines 229-260): a dict
with six fixed keys in literal order; five are filled by their scans and
`custom_properties` is initialised to the empty list and never assigned. -/
def detect_modern_css_features (css : String) : List (String × List String) :=
  let l := css.data
  [("container_queries",
      (findAllF (matchLitBlock "@container".data '{' '}') l.length l).map String.mk),
   ("css_nesting",
      (findAllF (matchLitBlock "&".data '{' '}') l.length l).map String.mk),
   ("has_selectors",
      (findAllF (matchToClose ":has(".data ')') l.length l).map String.mk),
   ("custom_properties", []),
   ("fluid_typography", (findAllF matchFluidAt l.length l).map String.mk),
   ("color_functions", (findAllF matchColorFnAt l.length l).map String.mk)]

/-! ### Lighten/darken helpers (lines 1025-1053)

Both helpers rebind the local `hex_color` to its `#`-stripped form before
the conversion that can raise, so the `except` branch returns the stripped
string, not the original argument. -/

/-- Decode step shared by `_lighten_color` and `_darken_color` (no
3-digit expansion here, unlike `hex_to_rgb`). -/
def lightenDecode (s : String) : Option (Int × Int × Int) :=
  let h := s.data.dropWhile (· == '#')
  match pyIntHex (pySlice2 h 0), pyIntHex (pySlice2 h 2), pyIntHex (pySlice2 h 4) with
  | some r, some g, some b => some (r, g, b)
  | _, _, _ => none

/-- `WebStyleExtractor._lighten_color`: move each channel toward 255 by
`amount` (truncating), clamp above at 255, and re-format with `%02x`; on
decode failure return the `#`-stripped input. -/
def lighten_color (s : String) (amount : ℚ) : String :=
  let h := s.data.dropWhile (· == '#')
  match lightenDecode s with
  | some (r, g, b) =>
    let f : Int → Int := fun c => pyMinI 255 (ratTrunc ((c : ℚ) + ((255 : ℚ) - (c : ℚ)) * amount))
    String.mk ('#' :: (intPad2x (f r) ++ intPad2x (f g) ++ intPad2x (f b)))
  | none => String.mk h

/-- `WebStyleExtractor._darken_color`: scale each channel by `1 - amount`
(truncating), clamp below at 0, and re-format with `%02x`; on decode
failure return the `#`-stripped input. -/
def darken_color (s : String) (amount : ℚ) : String :=
  let h := s.data.dropWhile (· == '#')
  match lightenDecode s with
  | some (r, g, b) =>
    let f : Int → Int := fun c => pyMaxI 0 (ratTrunc ((c : ℚ) * (1 - amount)))
    String.mk ('#' :: (intPad2x (f r) ++ intPad2x (f g) ++ intPad2x (f b)))
  | none => String.mk h

/-! ### Monospace heuristics -/

/-- Substring test, Python `needle in hay`. -/
def beginsWith : List Char → List Char → Bool
  | [], _ => true
  | _ :: _, [] => false
  | a :: as, b :: bs => a == b && beginsWith as bs

/-- Python `needle in hay` for strings. -/
def hasSub (needle : List Char) : List Char → Bool
  | [] => needle.isEmpty
  | c :: rest => beginsWith needle (c :: rest) || hasSub needle rest

/-- Monospace test of `generate_css_output` / `generate_modern_css_output`
(lines 471, 685): `'mono' in f.lower() or f.lower() in ['consolas',
'courier']`. -/
def css_mono_heuristic (f : String) : Bool :=
  hasSub "mono".data (lowerStr f).data ||
    (["consolas", "courier"] : List String).contains (lowerStr f)

/-- Monospace test of `generate_tailwind_config` (line 810): `'mono' in
f.lower() or f.lower() in ['consolas', 'courier', 'menlo']`. -/
def tw_mono_heuristic (f : String) : Bool :=
  hasSub "mono".data (lowerStr f).data ||
    (["consolas", "courier", "menlo"] : List String).contains (lowerStr f)

/-- Monospace test of `generate_design_tokens` (line 940): `any(mono in
f.lower() for mono in ['mono', 'consolas', 'courier', 'menlo'])` — a
substring test for every keyword. -/
def dt_mono_heuristic (f : String) : Bool :=
  (["mono", "consolas", "courier", "menlo"] : List String).any
    (fun m => hasSub m.data (lowerStr f).data)

/-! ### StyleProfile and document renderers

`WebStyleData` (lines 30-39) is the StyleProfile of the spec.  Every
renderer takes the `datetime.datetime.now()` reading as an explicit `now`
parameter; nothing else about rendering touches the outside world. -/

structure WebStyleData where
  url : String
  colors : List String
  fonts : List String
  body_bg : String
  heading_color : String
  link_color : String
  body_font : String
  css_text : String

/-- Python `chr(10).join` / `"\n".join`. -/
def joinLines (l : List String) : String := String.intercalate "\n" l

/-- Stable insertion into an ascending list (inserted after equal elements,
matching Python `sorted`). -/
def insertSorted (le : α → α → Bool) (x : α) : List α → List α
  | [] => [x]
  | y :: ys => if le y x then y :: insertSorted le x ys else x :: y :: ys

/-- Python `sorted(custom_props.items())`: ascending by key (the keys of a
dict are unique, so the value component never decides a comparison). -/
def sortProps (l : List (String × String)) : List (String × String) :=
  l.foldl (fun acc kv => insertSorted (fun a b => decide (a.1 ≤ b.1)) kv acc) []

/-- The `--font-mono` choice of the plain and modern style sheets (lines
471, 685): `next((f for f in data.fonts if <css heuristic>), 'monospace')`. -/
def findMonoFont (fonts : List String) : String :=
  match fonts.find? css_mono_heuristic with
  | some f => f
  | none => "monospace"

/-- Python `f"{n:02d}"`. -/
def pad2dec (n : Nat) : String :=
  String.mk (if (decRepr n).length < 2 then '0' :: decRepr n else decRepr n)

/-- Nat rendered in decimal (the `{i+1}` interpolations). -/
def natStr (n : Nat) : String := String.mk (decRepr n)

/-! ### Python `json.dumps(..., indent=2)` -/

/-- The JSON values the two JSON renderers build (insertion-ordered
objects, as in a Python dict). -/
inductive PyJson where
  | str (s : String)
  | num (n : Nat)
  | arr (xs : List PyJson)
  | obj (kvs : List (String × PyJson))

/-- Four lowercase hex digits, as in a `\uXXXX` escape. -/
def uHex4 (n : Nat) : List Char := padZeros 4 (hexRepr n)

/-- One character of a Python JSON string: the standard short escapes,
`\uXXXX` for other control characters, and (when `ensure_ascii` is set,
the `json.dumps` default) `\uXXXX`/surrogate-pair escapes for all
non-ASCII characters. -/
def jsonEscapeChar (ascii : Bool) (c : Char) : List Char :=
  if c == '"' then ['\\', '"']
  else if c == '\\' then ['\\', '\\']
  else if c == '\n' then ['\\', 'n']
  else if c == '\t' then ['\\', 't']
  else if c == '\r' then ['\\', 'r']
  else if c == '\x08' then ['\\', 'b']
  else if c == '\x0c' then ['\\', 'f']
  else if c.toNat < 32 then '\\' :: 'u' :: uHex4 c.toNat
  else if ascii && c.toNat > 126 then
    if c.toNat ≥ 65536 then
      ('\\' :: 'u' :: uHex4 (55296 + (c.toNat - 65536) / 1024)) ++
        ('\\' :: 'u' :: uHex4 (56320 + (c.toNat - 65536) % 1024))
    else '\\' :: 'u' :: uHex4 c.toNat
  else [c]

/-- A Python JSON string literal. -/
def jsonQuote (ascii : Bool) (s : String) : String :=
  "\"" ++ String.mk (s.data.flatMap (jsonEscapeChar ascii)) ++ "\""

/-- A run of spaces. -/
def spacesN (n : Nat) : String := String.mk (List.replicate n ' ')

mutual

/-- `json.dumps(v, indent=2)` with the closing bracket indented `ind`
spaces: items one per line, separated by `",\n"`, keys rendered as
`"key": value`; empty containers stay on one line. -/
def pyJsonDumps (ascii : Bool) (ind : Nat) : PyJson → String
  | .str s => jsonQuote ascii s
  | .num n => natStr n
  | .arr [] => "[]"
  | .arr (x :: xs) =>
    "[\n" ++ String.intercalate ",\n" (pyJsonArr ascii (ind + 2) (x :: xs)) ++
      "\n" ++ spacesN ind ++ "]"
  | .obj [] => "\x7b\x7d"
  | .obj (kv :: kvs) =>
    "\x7b\n" ++ String.intercalate ",\n" (pyJsonObj ascii (ind + 2) (kv :: kvs)) ++
      "\n" ++ spacesN ind ++ "\x7d"

/-- Array items of `pyJsonDumps`, each prefixed by its indentation. -/
def pyJsonArr (ascii : Bool) (ind : Nat) : List PyJson → List String
  | [] => []
  | x :: xs => (spacesN ind ++ pyJsonDumps ascii ind x) :: pyJsonArr ascii ind xs

/-- Object items of `pyJsonDumps`. -/
def pyJsonObj (ascii : Bool) (ind : Nat) : List (String × PyJson) → List String
  | [] => []
  | (k, v) :: xs =>
    (spacesN ind ++ jsonQuote ascii k ++ ": " ++ pyJsonDumps ascii ind v) ::
      pyJsonObj ascii ind xs

end

/-- `WebStyleExtractor.generate_json_output` (lines 404-425):
`json.dumps(json_data, indent=2, ensure_ascii=False)` of the fixed schema;
`now` models `datetime.datetime.now().isoformat()`. -/
def generate_json_output (data : WebStyleData) (now : String) : String :=
  pyJsonDumps false 0 (.obj
    [("url", .str data.url),
     ("extraction_date", .str (now ++ "Z")),
     ("styles", .obj
       [("body_background", .str data.body_bg),
        ("body_font", .str data.body_font),
        ("heading_color", .str data.heading_color),
        ("link_color", .str data.link_color)]),
     ("colors", .arr (data.colors.map .str)),
     ("fonts", .arr (data.fonts.map .str)),
     ("metadata", .obj
       [("extractor_version", .str "1.0"),
        ("total_colors_found", .num data.colors.length),
        ("total_fonts_found", .num data.fonts.length),
        ("extraction_method", .str "css_analysis_and_computed_styles"),
        ("browser_used", .str "Chrome (headless)")])])

/-- Items of the `--color-N` join (lines 441, 675). -/
def modernColorVarLines (colors : List String) : String :=
  joinLines (colors.mapIdx (fun i c =>
    "    --color-" ++ natStr (i+1) ++ ": " ++ c ++ ";  /* Color " ++ natStr (i+1) ++ " */"))

/-- Items of the `--color-N-oklch` join (line 444). -/
def modernOklchVarLines (colors : List String) : String :=
  joinLines (colors.mapIdx (fun i c =>
    "    --color-" ++ natStr (i+1) ++ "-oklch: " ++ hex_to_oklch_string c ++
      ";  /* Modern equivalent */"))

/-- Items of the sorted custom-property join (line 501). -/
def customPropLines (custom_props : List (String × String)) : String :=
  joinLines ((sortProps custom_props).map (fun kv => "    " ++ kv.1 ++ ": " ++ kv.2 ++ ";"))

/-- Items of the utility-class join of the modern style sheet (line 507). -/
def modernUtilLines (colors : List String) : String :=
  joinLines (colors.mapIdx (fun i _ =>
    ".bg-color-" ++ natStr (i+1) ++ " \x7b background: var(--color-" ++ natStr (i+1) ++
      "); \x7d\n.bg-color-" ++ natStr (i+1) ++ "-oklch \x7b background: var(--color-" ++
      natStr (i+1) ++ "-oklch); \x7d\n.text-color-" ++ natStr (i+1) ++
      " \x7b color: var(--color-" ++ natStr (i+1) ++ "); \x7d\n.text-color-" ++
      natStr (i+1) ++ "-oklch \x7b color: var(--color-" ++ natStr (i+1) ++ "-oklch); \x7d"))

/-- Items of the `--color-N` join of the plain style sheet (line 675). -/
def cssColorVarLines (colors : List String) : String := modernColorVarLines colors

/-- Items of the utility-class join of the plain style sheet (line 696). -/
def cssUtilLines (colors : List String) : String :=
  joinLines (colors.mapIdx (fun i _ =>
    ".bg-color-" ++ natStr (i+1) ++ " \x7b background-color: var(--color-" ++ natStr (i+1) ++
      "); \x7d\n.text-color-" ++ natStr (i+1) ++ " \x7b color: var(--color-" ++
      natStr (i+1) ++ "); \x7d\n.border-color-" ++ natStr (i+1) ++
      " \x7b border-color: var(--color-" ++ natStr (i+1) ++ "); \x7d"))

/-- Lines 432-493: the interpolated header and variables block of `generate_modern_css_output`. -/
def modernCssHead (data : WebStyleData) (now : String) : String :=
  "/* 
   Modern CSS Variables and Utilities (2025)
   Generated from: " ++
  (data.url) ++
  "
   Date: " ++
  (now) ++
  "
   Web Style Extractor v2.0 - Modern CSS Edition
*/

:root \x7b
    /* === Traditional Color Palette === */
" ++
  (modernColorVarLines data.colors) ++
  "
    
    /* === Modern OKLCH Colors === */
" ++
  (modernOklchVarLines data.colors) ++
  "
    
    /* === Named Color System === */
    --color-primary: " ++
  (data.colors.headD "#000000") ++
  ";
    --color-primary-oklch: " ++
  (match data.colors with | c :: _ => hex_to_oklch_string c | [] => "oklch(50% 0.1 0deg)") ++
  ";
    --color-secondary: " ++
  (data.colors.getD 1 "#666666") ++
  ";
    --color-secondary-oklch: " ++
  (match data.colors with | _ :: c :: _ => hex_to_oklch_string c | _ => "oklch(50% 0.1 120deg)") ++
  ";
    
    /* === Dynamic Color Variations (CSS 2025) === */
    --color-primary-light: oklch(from var(--color-primary-oklch) calc(l + 0.2) c h);
    --color-primary-dark: oklch(from var(--color-primary-oklch) calc(l - 0.2) c h);
    --color-secondary-light: oklch(from var(--color-secondary-oklch) calc(l + 0.2) c h);
    --color-secondary-dark: oklch(from var(--color-secondary-oklch) calc(l - 0.2) c h);
    
    /* === Design Token System === */
    --space-3xs: 0.25rem;  /* 4px */
    --space-2xs: 0.5rem;   /* 8px */ 
    --space-xs: 0.75rem;   /* 12px */
    --space-sm: 1rem;      /* 16px */
    --space-md: 1.5rem;    /* 24px */
    --space-lg: 2rem;      /* 32px */
    --space-xl: 3rem;      /* 48px */
    --space-2xl: 4rem;     /* 64px */
    
    /* === Typography Scale === */
    --font-primary: " ++
  (data.fonts.headD "Arial") ++
  ";
    --font-secondary: " ++
  (data.fonts.getD 1 "sans-serif") ++
  ";
    --font-mono: " ++
  (findMonoFont data.fonts) ++
  ";
    --font-stack: " ++
  (data.body_font) ++
  ";
    
    /* === Fluid Typography System === */
    --font-size-fluid-xs: clamp(0.75rem, 1.5vw, 0.875rem);
    --font-size-fluid-sm: clamp(0.875rem, 2vw, 1rem);
    --font-size-fluid-base: clamp(1rem, 2.5vw, 1.125rem);
    --font-size-fluid-lg: clamp(1.125rem, 3vw, 1.375rem);
    --font-size-fluid-xl: clamp(1.375rem, 4vw, 1.875rem);
    --font-size-fluid-2xl: clamp(1.875rem, 5vw, 2.5rem);
    
    /* === Extracted Styles === */
    --body-background: " ++
  (data.body_bg) ++
  ";
    --heading-color: " ++
  (data.heading_color) ++
  ";
    --link-color: " ++
  (data.link_color) ++
  ";
    --text-color: " ++
  (data.heading_color) ++
  ";
    
    /* === Shadow System === */
    --shadow-xs: 0 1px 2px 0 rgba(0, 0, 0, 0.05);
    --shadow-sm: 0 1px 3px 0 rgba(0, 0, 0, 0.1), 0 1px 2px 0 rgba(0, 0, 0, 0.06);
    --shadow-md: 0 4px 6px -1px rgba(0, 0, 0, 0.1), 0 2px 4px -1px rgba(0, 0, 0, 0.06);
    --shadow-lg: 0 10px 15px -3px rgba(0, 0, 0, 0.1), 0 4px 6px -2px rgba(0, 0, 0, 0.05);
\x7d"

/-- Lines 497-502: extracted custom properties appended sorted by name. -/
def modernCssPropsBlock (custom_props : List (String × String)) : String :=
  "

/* === Existing CSS Custom Properties (Extracted) === */
:root \x7b
" ++
  (customPropLines custom_props) ++
  "
\x7d"

/-- Lines 504-605: utility classes (one block per colour) and static component styles. -/
def modernCssMain (data : WebStyleData) : String :=
  "

/* === Modern Color Utility Classes === */
" ++
  (modernUtilLines data.colors) ++
  "

/* === Typography Utilities === */
.font-primary \x7b font-family: var(--font-primary), var(--font-stack); \x7d
.font-secondary \x7b font-family: var(--font-secondary), var(--font-stack); \x7d
.font-mono \x7b font-family: var(--font-mono), monospace; \x7d

/* === Fluid Typography Classes === */
.text-fluid-xs \x7b font-size: var(--font-size-fluid-xs); \x7d
.text-fluid-sm \x7b font-size: var(--font-size-fluid-sm); \x7d
.text-fluid-base \x7b font-size: var(--font-size-fluid-base); \x7d
.text-fluid-lg \x7b font-size: var(--font-size-fluid-lg); \x7d
.text-fluid-xl \x7b font-size: var(--font-size-fluid-xl); \x7d
.text-fluid-2xl \x7b font-size: var(--font-size-fluid-2xl); \x7d

/* === Spacing Utilities === */
.space-3xs \x7b margin: var(--space-3xs); \x7d
.space-2xs \x7b margin: var(--space-2xs); \x7d
.space-xs \x7b margin: var(--space-xs); \x7d
.space-sm \x7b margin: var(--space-sm); \x7d
.space-md \x7b margin: var(--space-md); \x7d
.space-lg \x7b margin: var(--space-lg); \x7d

/* === Modern Component Base Styles === */
body \x7b
    background: var(--body-background);
    font-family: var(--font-stack);
    color: var(--text-color);
    font-size: var(--font-size-fluid-base);
\x7d

h1 \x7b 
    color: var(--heading-color);
    font-family: var(--font-primary), var(--font-stack);
    font-size: var(--font-size-fluid-2xl);
\x7d

h2 \x7b 
    color: var(--heading-color);
    font-size: var(--font-size-fluid-xl);
\x7d

h3 \x7b 
    color: var(--heading-color);
    font-size: var(--font-size-fluid-lg);
\x7d

a \x7b
    color: var(--link-color);
    transition: color 0.2s ease;
    
    &:hover \x7b
        color: var(--color-primary-light);
    \x7d
\x7d

/* === Modern Button Component === */
.btn \x7b
    display: inline-flex;
    align-items: center;
    gap: var(--space-2xs);
    padding: var(--space-xs) var(--space-sm);
    border-radius: 0.375rem;
    font-weight: 500;
    font-size: var(--font-size-fluid-sm);
    transition: all 0.2s ease;
    border: none;
    cursor: pointer;
    
    &:hover \x7b
        transform: translateY(-1px);
        box-shadow: var(--shadow-md);
    \x7d
    
    &:focus-visible \x7b
        outline: 2px solid var(--color-primary);
        outline-offset: 2px;
    \x7d
\x7d

.btn--primary \x7b
    background: var(--color-primary);
    color: white;
    
    &:hover \x7b
        background: var(--color-primary-dark);
    \x7d
\x7d

.btn--secondary \x7b
    background: transparent;
    color: var(--color-primary);
    border: 1px solid var(--color-primary);
    
    &:hover \x7b
        background: var(--color-primary);
        color: white;
    \x7d
\x7d"

/-- Lines 609-619: section appended when container-query usage was detected. -/
def modernCssContainerBlock : String :=
  "

/* === Container Queries Detected === */
.container-aware \x7b
    container-type: inline-size;
    container-name: component;
\x7d

@container component (min-width: 400px) \x7b
    .responsive-content \x7b display: grid; \x7d
\x7d"

/-- Lines 622-631: section appended when `:has()` usage was detected. -/
def modernCssHasBlock : String :=
  "

/* === :has() Selector Patterns Detected === */
.form:has(input:invalid) \x7b
    border-color: var(--color-danger);
\x7d

.card:has(img) \x7b
    grid-template-areas: \"image content\";
\x7d"

/-- Lines 633-661: the static usage-examples tail. -/
def modernCssTail : String :=
  "

/* === Usage Examples ===

Example 1: Modern color usage
.my-component \x7b
    background: var(--color-primary-oklch);
    color: var(--color-primary-light);
\x7d

Example 2: Fluid typography
.heading \x7b
    font-size: var(--font-size-fluid-xl);
    line-height: 1.2;
\x7d

Example 3: Design token spacing
.card \x7b
    padding: var(--space-md);
    margin-bottom: var(--space-lg);
    border-radius: var(--space-xs);
\x7d

Example 4: Modern button with container queries
<div class=\"container-aware\">
    <button class=\"btn btn--primary\">Click me</button>
</div>

*/"

/-- Lines 666-779: `generate_css_output`, the plain CSS variables/utilities document. -/
def generate_css_output (data : WebStyleData) (now : String) : String :=
  "/* 
   CSS Variables and Utilities
   Generated from: " ++
  (data.url) ++
  "
   Date: " ++
  (now) ++
  "
   Web Style Extractor v1.0
*/

:root \x7b
    /* === Color Palette === */
" ++
  (cssColorVarLines data.colors) ++
  "
    
    /* === Named Colors === */
    --color-primary: " ++
  (data.colors.headD "#000000") ++
  ";
    --color-secondary: " ++
  (data.colors.getD 1 "#666666") ++
  ";
    --color-accent: " ++
  (data.colors.getD 2 "#999999") ++
  ";
    
    /* === Typography === */
    --font-primary: " ++
  (data.fonts.headD "Arial") ++
  ";
    --font-secondary: " ++
  (data.fonts.getD 1 "sans-serif") ++
  ";
    --font-mono: " ++
  (findMonoFont data.fonts) ++
  ";
    --font-stack: " ++
  (data.body_font) ++
  ";
    
    /* === Extracted Styles === */
    --body-background: " ++
  (data.body_bg) ++
  ";
    --heading-color: " ++
  (data.heading_color) ++
  ";
    --link-color: " ++
  (data.link_color) ++
  ";
    --text-color: " ++
  (data.heading_color) ++
  ";
\x7d

/* === Color Utility Classes === */
" ++
  (cssUtilLines data.colors) ++
  "

/* === Typography Utility Classes === */
.font-primary \x7b font-family: var(--font-primary), var(--font-stack); \x7d
.font-secondary \x7b font-family: var(--font-secondary), var(--font-stack); \x7d
.font-mono \x7b font-family: var(--font-mono), monospace; \x7d

/* === Layout Utility Classes === */
.bg-body \x7b background: var(--body-background); \x7d
.text-heading \x7b color: var(--heading-color); \x7d
.text-link \x7b color: var(--link-color); \x7d

/* === Component Base Styles === */
body \x7b
    background: var(--body-background);
    font-family: var(--font-stack);
    color: var(--text-color);
\x7d

h1, h2, h3, h4, h5, h6 \x7b
    color: var(--heading-color);
    font-family: var(--font-primary), var(--font-stack);
\x7d

a \x7b
    color: var(--link-color);
\x7d

code, pre \x7b
    font-family: var(--font-mono), monospace;
\x7d

/* === Color Palette Classes === */
.palette-1 \x7b --current-color: var(--color-1); \x7d
.palette-2 \x7b --current-color: var(--color-2); \x7d
.palette-3 \x7b --current-color: var(--color-3); \x7d
.palette-4 \x7b --current-color: var(--color-4); \x7d
.palette-5 \x7b --current-color: var(--color-5); \x7d

/* Use with: background: var(--current-color); or color: var(--current-color); */

/* === Responsive Font Sizes === */
:root \x7b
    --font-size-xs: 0.75rem;
    --font-size-sm: 0.875rem;
    --font-size-base: 1rem;
    --font-size-lg: 1.125rem;
    --font-size-xl: 1.25rem;
    --font-size-2xl: 1.5rem;
    --font-size-3xl: 1.875rem;
    --font-size-4xl: 2.25rem;
\x7d

.text-xs \x7b font-size: var(--font-size-xs); \x7d
.text-sm \x7b font-size: var(--font-size-sm); \x7d
.text-base \x7b font-size: var(--font-size-base); \x7d
.text-lg \x7b font-size: var(--font-size-lg); \x7d
.text-xl \x7b font-size: var(--font-size-xl); \x7d
.text-2xl \x7b font-size: var(--font-size-2xl); \x7d
.text-3xl \x7b font-size: var(--font-size-3xl); \x7d
.text-4xl \x7b font-size: var(--font-size-4xl); \x7d

/* === Usage Examples ===

Example 1: Basic usage
<div class=\"bg-color-1 text-color-2 font-primary\">
    Content with extracted colors and fonts
</div>

Example 2: Component styling
.my-button \x7b
    background: var(--color-primary);
    color: var(--color-secondary);
    font-family: var(--font-primary);
\x7d

Example 3: Theme-aware components
.card \x7b
    background: var(--body-background);
    color: var(--text-color);
    border: 1px solid var(--color-accent);
\x7d

*/"

/-- `WebStyleExtractor.generate_modern_css_output` (lines 427-662).  The
value is `Except`: with empty `css_text` the guards at lines 429-430 leave
`modern_features` an empty dict, and the unconditional dict lookups at
lines 608 and 621 then raise `KeyError`, modelled as `Except.error`. -/
def generate_modern_css_output (data : WebStyleData) (css_text : String) (now : String) :
    Except String String :=
  let custom_props := if css_text ≠ "" then extract_css_custom_properties css_text else []
  let modern_features := if css_text ≠ "" then detect_modern_css_features css_text else []
  let css1 := modernCssHead data now ++
    (if custom_props ≠ [] then modernCssPropsBlock custom_props else "") ++
    modernCssMain data
  match modern_features.lookup "container_queries" with
  | none => .error "KeyError: 'container_queries'"
  | some cq =>
    let css2 := css1 ++ (if !cq.isEmpty then modernCssContainerBlock else "")
    match modern_features.lookup "has_selectors" with
    | none => .error "KeyError: 'has_selectors'"
    | some hs =>
      .ok (css2 ++ (if !hs.isEmpty then modernCssHasBlock else "") ++ modernCssTail)

/-! ### Framework config (generate_tailwind_config, lines 782-875) -/

/-- A value of the tailwind `colors` dict: the first colour becomes a shade
ramp, the rest stay flat strings. -/
inductive TwColorVal where
  | ramp (shades : List (String × String))
  | flat (c : String)
deriving DecidableEq

/-- Lines 784-803: the `colors` dict.  Index 0 becomes the `primary` ramp
built with the lighten/darken helpers at the fixed ratios 0.4/0.3/0.2/0.1;
every other colour `i` becomes a flat `color-{i+1}` entry. -/
def tailwind_colors (colors : List String) : List (String × TwColorVal) :=
  (colors.take 10).mapIdx (fun i c =>
    if i == 0 then
      ("primary", .ramp
        [("50", lighten_color c (4/10)),
         ("100", lighten_color c (3/10)),
         ("200", lighten_color c (2/10)),
         ("300", lighten_color c (1/10)),
         ("400", c),
         ("500", c),
         ("600", darken_color c (1/10)),
         ("700", darken_color c (2/10)),
         ("800", darken_color c (3/10)),
         ("900", darken_color c (4/10))])
    else ("color-" ++ natStr (i+1), .flat c))

/-- Lines 806-812: the `fontFamily` dict: a `sans` entry with the first up
to three fonts, and a `mono` entry with the first two matches of the
tailwind monospace heuristic when there are any. -/
def tailwind_font_families (fonts : List String) : List (String × List String) :=
  if fonts.isEmpty then []
  else
    let sans := if fonts.length ≥ 3 then fonts.take 3 else fonts
    let mono := fonts.filter tw_mono_heuristic
    ("sans", sans) :: (if mono.isEmpty then [] else [("mono", mono.take 2)])

/-- Lines 824-836: one colour entry of the config text. -/
def twColorEntryText : String × TwColorVal → String
  | (name, .ramp shades) =>
    "\n        '" ++ name ++ "': \x7b" ++
      String.join (shades.map (fun sv => "\n          " ++ sv.1 ++ ": '" ++ sv.2 ++ "',")) ++
      "\n        \x7d,"
  | (name, .flat c) => "\n        '" ++ name ++ "': '" ++ c ++ "',"

/-- Lines 845-852: one font-family entry of the config text. -/
def twFontEntryText (fv : String × List String) : String :=
  "\n        '" ++ fv.1 ++ "': ['" ++ String.intercalate "', '" fv.2 ++ "'],"

/-- `WebStyleExtractor.generate_tailwind_config` (lines 782-875). -/
def generate_tailwind_config (data : WebStyleData) (now : String) : String :=
  "// tailwind.config.js - Generated from extracted styles\n// Source: " ++ data.url ++
    "\n// Generated: " ++ now ++
    "\n\nmodule.exports = \x7b\n  theme: \x7b\n    extend: \x7b\n      colors: \x7b" ++
    String.join ((tailwind_colors data.colors).map twColorEntryText) ++
    "\n      \x7d," ++
    (let ff := tailwind_font_families data.fonts
     if ff.isEmpty then "" else
       "\n      fontFamily: \x7b" ++ String.join (ff.map twFontEntryText) ++ "\n      \x7d,") ++
    "\n      spacing: \x7b\n        '18': '4.5rem',\n        '88': '22rem',\n      \x7d,"
    ++ "\n      borderRadius: \x7b\n        'xl': '1rem',\n        '2xl': '1.5rem',\n      \x7d"
    ++ "\n    \x7d\n  \x7d,\n  plugins: [\n    // Add any Tailwind plugins here\n  ]\n\x7d"

/-! ### Design tokens (generate_design_tokens, lines 877-1023) -/

/-- Lines 907-914: one palette token per extracted colour. -/
def dtPaletteEntries (colors : List String) : List (String × PyJson) :=
  colors.mapIdx (fun i c =>
    ("color-" ++ pad2dec (i+1), .obj
      [("value", .str c),
       ("oklch", .str (hex_to_oklch_string c)),
       ("type", .str "color"),
       ("description", .str ("Extracted color #" ++ natStr (i+1)))]))

/-- Lines 916-936: semantic tokens, emitted only for truthy profile
fields. -/
def dtSemanticEntries (data : WebStyleData) : List (String × PyJson) :=
  (if data.body_bg ≠ "" then
    [("background", PyJson.obj
      [("value", .str data.body_bg),
       ("type", .str "color"),
       ("description", .str "Primary background color")])] else []) ++
  (if data.heading_color ≠ "" then
    [("text-primary", PyJson.obj
      [("value", .str data.heading_color),
       ("type", .str "color"),
       ("description", .str "Primary text color")])] else []) ++
  (if data.link_color ≠ "" then
    [("text-link", PyJson.obj
      [("value", .str data.link_color),
       ("type", .str "color"),
       ("description", .str "Link color")])] else [])

/-- Lines 938-945: one font token per font, classified by the design-token
monospace heuristic. -/
def dtFontFamilyEntries (fonts : List String) : List (String × PyJson) :=
  fonts.mapIdx (fun i f =>
    ("font-" ++ pad2dec (i+1), .obj
      [("value", .arr [.str f]),
       ("type", .str ("fontFamily." ++ (if dt_mono_heuristic f then "monospace" else "sans-serif"))),
       ("description", .str ("Font family #" ++ natStr (i+1)))]))

/-- Lines 947-966: the fixed spacing scale. -/
def dtSpacingEntries : List (String × PyJson) :=
  [("3xs", "0.25rem", "4px"), ("2xs", "0.5rem", "8px"), ("xs", "0.75rem", "12px"),
   ("sm", "1rem", "16px"), ("md", "1.5rem", "24px"), ("lg", "2rem", "32px"),
   ("xl", "3rem", "48px"), ("2xl", "4rem", "64px"), ("3xl", "6rem", "96px")].map
    (fun t => (t.1, .obj
      [("value", .str t.2.1), ("pixel", .str t.2.2), ("type", .str "dimension"),
       ("description", .str ("Spacing " ++ t.1))]))

/-- Lines 968-984: the fixed fluid font-size scale. -/
def dtFontSizeEntries : List (String × PyJson) :=
  [("xs", "clamp(0.75rem, 1.5vw, 0.875rem)", "0.75rem"),
   ("sm", "clamp(0.875rem, 2vw, 1rem)", "0.875rem"),
   ("base", "clamp(1rem, 2.5vw, 1.125rem)", "1rem"),
   ("lg", "clamp(1.125rem, 3vw, 1.375rem)", "1.125rem"),
   ("xl", "clamp(1.375rem, 4vw, 1.875rem)", "1.375rem"),
   ("2xl", "clamp(1.875rem, 5vw, 2.5rem)", "1.875rem")].map
    (fun t => (t.1, .obj
      [("value", .str t.2.1), ("static", .str t.2.2), ("type", .str "fontSize.fluid"),
       ("description", .str ("Font size " ++ t.1))]))

/-- Lines 986-1003: the fixed border-radius scale. -/
def dtBorderRadiusEntries : List (String × PyJson) :=
  [("none", "0"), ("sm", "0.125rem"), ("base", "0.25rem"), ("md", "0.375rem"),
   ("lg", "0.5rem"), ("xl", "0.75rem"), ("2xl", "1rem"), ("full", "9999px")].map
    (fun t => (t.1, .obj
      [("value", .str t.2), ("type", .str "borderRadius"),
       ("description", .str ("Border radius " ++ t.1))]))

/-- Lines 1005-1021: the fixed shadow scale. -/
def dtShadowEntries : List (String × PyJson) :=
  [("xs", "0 1px 2px 0 rgba(0, 0, 0, 0.05)"),
   ("sm", "0 1px 3px 0 rgba(0, 0, 0, 0.1), 0 1px 2px 0 rgba(0, 0, 0, 0.06)"),
   ("base", "0 4px 6px -1px rgba(0, 0, 0, 0.1), 0 2px 4px -1px rgba(0, 0, 0, 0.06)"),
   ("md", "0 4px 6px -1px rgba(0, 0, 0, 0.1), 0 2px 4px -1px rgba(0, 0, 0, 0.06)"),
   ("lg", "0 10px 15px -3px rgba(0, 0, 0, 0.1), 0 4px 6px -2px rgba(0, 0, 0, 0.05)"),
   ("xl", "0 20px 25px -5px rgba(0, 0, 0, 0.1), 0 10px 10px -5px rgba(0, 0, 0, 0.04)"),
   ("2xl", "0 25px 50px -12px rgba(0, 0, 0, 0.25)")].map
    (fun t => (t.1, .obj
      [("value", .str t.2), ("type", .str "boxShadow"),
       ("description", .str ("Box shadow " ++ t.1))]))

/-- `WebStyleExtractor.generate_design_tokens` (lines 877-1023):
`json.dumps(tokens, indent=2)` (default `ensure_ascii=True`); `now` models
`datetime.datetime.now().isoformat()`.  The `fontWeights` dict is declared
and never filled. -/
def generate_design_tokens (data : WebStyleData) (now : String) : String :=
  pyJsonDumps true 0 (.obj [("designSystem", .obj
    [("colors", .obj
       [("palette", .obj (dtPaletteEntries data.colors)),
        ("semantic", .obj (dtSemanticEntries data))]),
     ("typography", .obj
       [("fontFamilies", .obj (dtFontFamilyEntries data.fonts)),
        ("fontSizes", .obj dtFontSizeEntries),
        ("fontWeights", .obj [])]),
     ("spacing", .obj [("scale", .obj dtSpacingEntries)]),
     ("borderRadius", .obj dtBorderRadiusEntries),
     ("shadows", .obj dtShadowEntries),
     ("metadata", .obj
       [("source", .str data.url),
        ("generated", .str now),
        ("version", .str "1.0")])])])

/-! ### Template-driven formats and the dispatch (generate_template, lines 346-402) -/

/-- Replace every occurrence of `pat` by `rep`, scanning left to right. -/
def replaceAllF : Nat → List Char → List Char → List Char → List Char
  | 0, _, _, l => l
  | _ + 1, _, _, [] => []
  | fuel + 1, pat, rep, c :: rest =>
    if !pat.isEmpty && beginsWith pat (c :: rest) then
      rep ++ replaceAllF fuel pat rep ((c :: rest).drop pat.length)
    else c :: replaceAllF fuel pat rep rest

/-- String replacement of a literal pattern. -/
def replaceAll (s pat rep : String) : String :=
  String.mk (replaceAllF s.data.length pat.data rep.data s.data)

/-- Modelled from the spec (section 6): the template files of the
documentation formats are not part of src/, and `str.format` substitution
on them is "substituted by literal replacement" of the named placeholders
`\x7burl\x7d`, `\x7bbody_bg\x7d`, `\x7bbody_font\x7d`, `\x7bheading_color\x7d`,
`\x7blink_color\x7d`, `\x7bcolor_rows\x7d`, `\x7bfont_rows\x7d` in the base template and
`\x7bcolor\x7d` / `\x7bfont\x7d` in the row templates (lines 386-402). -/
def render_with_templates (data : WebStyleData) (base colorRow fontRow : String) : String :=
  let color_rows := joinLines (data.colors.map (fun c => replaceAll colorRow "\x7bcolor\x7d" c))
  let font_rows := joinLines (data.fonts.map (fun f => replaceAll fontRow "\x7bfont\x7d" f))
  replaceAll (replaceAll (replaceAll (replaceAll (replaceAll (replaceAll (replaceAll base
    "\x7burl\x7d" data.url) "\x7bbody_bg\x7d" data.body_bg) "\x7bbody_font\x7d" data.body_font)
    "\x7bheading_color\x7d" data.heading_color) "\x7blink_color\x7d" data.link_color)
    "\x7bcolor_rows\x7d" color_rows) "\x7bfont_rows\x7d" font_rows

/-- `WebStyleExtractor.generate_template` (lines 346-402): dispatch on the
output format.  The five programmatic formats are generated directly; any
other format goes through the template files, whose contents are supplied
here as an explicit optional argument (`none` models a missing template
directory or missing template files, for which the source logs an error
and returns the empty string). -/
def generate_template (data : WebStyleData) (output_format : String) (now : String)
    (templates : Option (String × String × String)) : Except String String :=
  if output_format = "json" then .ok (generate_json_output data now)
  else if output_format = "css" then .ok (generate_css_output data now)
  else if output_format = "modern-css" then generate_modern_css_output data data.css_text now
  else if output_format = "tailwind" then .ok (generate_tailwind_config data now)
  else if output_format = "design-tokens" then .ok (generate_design_tokens data now)
  else
    match templates with
    | none => .ok ""
    | some (b, cr, fr) => .ok (render_with_templates data b cr fr)

/-- A small profile used in development checks. -/
def sampleData : WebStyleData :=
  ⟨"https://ex.com/ü", ["#0a0b0c", "#ffffff"], ["Arial", "Menlo"],
   "#ffffff", "#000000", "#0000ee", "Arial, sans-serif", ""⟩

/-- The colour format asserted by the spec: `#` followed by exactly six
lowercase hexadecimal digits. -/
def isSixDigitLowerHex (s : String) : Bool :=
  match s.data with
  | '#' :: rest => rest.length == 6 && rest.all (fun c => isAsciiDigit c || ('a' ≤ c && c ≤ 'f'))
  | _ => false

/-- A string is unchanged by Python `str.lower()`. -/
def isLowerInvariant (s : String) : Bool := s.data.map pyToLower == s.data

/-- A profile whose raw style text is the empty string (the case claim C2
singles out), with ordinary values everywhere else. -/
def emptyCssProfile : WebStyleData :=
  ⟨"https://example.com", ["#123456"], ["Arial"], "#ffffff", "#000000", "#0000ee",
   "Arial, sans-serif", ""⟩

/-- The output shape asserted by the spec for the OKLCH converter: the
string begins with `oklch(` and contains a closing parenthesis. -/
def oklchShaped (s : String) : Bool :=
  (s.data.take 6 == "oklch(".data) && s.data.contains ')'

/-! ## Validation examples and lemmas -/

example : extract_colors "#AABBCCDD" [] = ["#aabbccdd"] := by decide

example : extract_colors "a\x7bcolor:#FFF\x7d b\x7bcolor:#ffffff\x7d" [] = ["#ffffff"] := by
  decide

example : extract_colors "rgb(300, 0, 0) rgba(1,2,3,0.5)" [] = ["#12c0000", "#010203"] := by
  decide

example : extract_colors "#abc #AABBCC" [(255, 0, 0)] = ["#aabbcc", "#ff0000"] := by decide

example :
    extract_fonts "div\x7bfont-family: 'Helvetica Neue', Arial, sans-serif;\x7d" =
      ["Helvetica Neue", "Arial", "sans-serif"] := by decide

example : extract_fonts "a\x7bfont-family: x;\x7d b\x7bFONT-FAMILY:x, y , 'x'\x7d" =
    ["x", "y", "x'\x7d"] := by decide

example :
    extract_css_custom_properties ":root \x7b --main-color: #fff; --x:1px \x7d" =
      [("--main-color", "#fff"), ("--x", "1px")] := by decide

example : extract_css_custom_properties "--a: 1; --a: 2;" = [("--a", "2")] := by decide

example :
    (detect_modern_css_features
      "a \x7b &:hover \x7b color:red \x7d \x7d f: clamp(1rem, 2vw, 2rem); g: minmax(10px, 1fr); d:has(img)").map
        Prod.snd =
      [[], ["&:hover \x7b color:red \x7d"], [":has(img)"], [],
       ["clamp(1rem, 2vw, 2rem)", "max(10px, 1fr)"], []] := by decide

example : lighten_color "#000000" (1/2) = "#7f7f7f" := by decide

example : darken_color "#ffffff" (1/2) = "#7f7f7f" := by decide

example : lighten_color "#zz" (1/2) = "zz" := by decide

example : lighten_color "#0080ff" (1/10) = "#198cff" := by decide

example : dt_mono_heuristic "Courier New" = true := by decide

example : tw_mono_heuristic "Courier New" = false := by decide

example : css_mono_heuristic "Menlo" = false ∧ tw_mono_heuristic "Menlo" = true := by decide

set_option maxRecDepth 4000 in
example :
    generate_json_output sampleData "2025-01-02T03:04:05" =
      "\x7b\n  \"url\": \"https://ex.com/ü\",\n  \"extraction_date\": \"2025-01-02T03:04:05Z\",\n  \"styles\": \x7b\n    \"body_background\": \"#ffffff\",\n    \"body_font\": \"Arial, sans-serif\",\n    \"heading_color\": \"#000000\",\n    \"link_color\": \"#0000ee\"\n  \x7d,\n  \"colors\": [\n    \"#0a0b0c\",\n    \"#ffffff\"\n  ],\n  \"fonts\": [\n    \"Arial\",\n    \"Menlo\"\n  ],\n  \"metadata\": \x7b\n    \"extractor_version\": \"1.0\",\n    \"total_colors_found\": 2,\n    \"total_fonts_found\": 2,\n    \"extraction_method\": \"css_analysis_and_computed_styles\",\n    \"browser_used\": \"Chrome (headless)\"\n  \x7d\n\x7d" := by
  decide

example :
    generate_template sampleData "modern-css" "now" none =
      .error "KeyError: 'container_queries'" := rfl

set_option maxRecDepth 4000 in
example :
    generate_tailwind_config sampleData "NOWSTR" =
      "// tailwind.config.js - Generated from extracted styles\n// Source: https://ex.com/ü\n// Generated: NOWSTR\n\nmodule.exports = \x7b\n  theme: \x7b\n    extend: \x7b\n      colors: \x7b\n        'primary': \x7b\n          50: '#6c6c6d',\n          100: '#535454',\n          200: '#3b3b3c',\n          300: '#222324',\n          400: '#0a0b0c',\n          500: '#0a0b0c',\n          600: '#09090a',\n          700: '#080809',\n          800: '#070708',\n          900: '#060607',\n        \x7d,\n        'color-2': '#ffffff',\n      \x7d,\n      fontFamily: \x7b\n        'sans': ['Arial', 'Menlo'],\n        'mono': ['Menlo'],\n      \x7d,\n      spacing: \x7b\n        '18': '4.5rem',\n        '88': '22rem',\n      \x7d,\n      borderRadius: \x7b\n        'xl': '1rem',\n        '2xl': '1.5rem',\n      \x7d\n    \x7d\n  \x7d,\n  plugins: [\n    // Add any Tailwind plugins here\n  ]\n\x7d" := by
  decide

set_option maxRecDepth 2000 in
example :
    pyJsonDumps true 0 (.obj [("x", .obj (dtPaletteEntries ["#0a0b0c"]))]) =
      "\x7b\n  \"x\": \x7b\n    \"color-01\": \x7b\n      \"value\": \"#0a0b0c\",\n      \"oklch\": \"oklch(4.3% 0.034 210.0deg)\",\n      \"type\": \"color\",\n      \"description\": \"Extracted color #1\"\n    \x7d\n  \x7d\n\x7d" := by
  decide

set_option maxRecDepth 2000 in
example : hex_to_oklch_string "#0a0b0c" = "oklch(4.3% 0.034 210.0deg)" := by decide

set_option maxRecDepth 2000 in
example : hex_to_oklch_string "#ffffff" = "oklch(100.0% 0.000 0.0deg)" := by decide

set_option maxRecDepth 2000 in
example : hex_to_oklch_string "zz" = "oklch(50% 0.1 0deg)  /* fallback for zz */" := by decide

set_option maxRecDepth 2000 in
example : hex_to_oklch_string "#ff0000" = "oklch(50.0% 0.370 0.0deg)" := by decide

/-- A nonempty-or-ok check for the modern renderer on nonempty style text
(both feature keys are present, so rendering succeeds). -/
example :
    (generate_template
      ⟨"u", ["#123456"], ["Arial"], "#ffffff", "#000000", "#0000ee", "A", "b \x7b color: red \x7d"⟩
      "modern-css" "now" none).isOk = true := by decide

/-! ## Helper lemmas -/

set_option maxHeartbeats 1000000 in
/-- Lowering an already-produced character is the identity on its image:
`pyToLower` maps every character either to itself or into the lowercase
letters. -/
theorem pyToLower_cases (c : Char) :
    pyToLower c = c ∨ pyToLower c ∈
      ['a','b','c','d','e','f','g','h','i','j','k','l','m',
       'n','o','p','q','r','s','t','u','v','w','x','y','z'] := by
  unfold pyToLower
  split <;> first | (left; rfl) | (right; decide)

set_option maxHeartbeats 1000000 in
/-- `pyToLower` is idempotent. -/
theorem pyToLower_idem (c : Char) : pyToLower (pyToLower c) = pyToLower c := by
  rcases pyToLower_cases c with h | h
  · rw [h]; exact h
  · simp only [List.mem_cons, List.not_mem_nil, or_false] at h
    rcases h with h|h|h|h|h|h|h|h|h|h|h|h|h|h|h|h|h|h|h|h|h|h|h|h|h|h <;>
      rw [h] <;> decide

/-- Mapping `pyToLower` over an already-lowered list changes nothing. -/
theorem map_pyToLower_idem (l : List Char) :
    (l.map pyToLower).map pyToLower = l.map pyToLower := by
  rw [List.map_map]
  exact List.map_congr_left (fun c _ => pyToLower_idem c)

/-- Hex digits are already lowercase. -/
theorem hexDigitChar_lower (n : Nat) : pyToLower (hexDigitChar n) = hexDigitChar n := by
  unfold hexDigitChar
  split <;> decide

/-- The `%x` rendering contains no uppercase characters. -/
theorem hexReprF_lower (fuel n : Nat) :
    (hexReprF fuel n).map pyToLower = hexReprF fuel n := by
  induction fuel generalizing n with
  | zero => rfl
  | succ fuel ih =>
    rw [hexReprF]
    split
    · simp [hexDigitChar_lower]
    · simp [ih, hexDigitChar_lower]

/-- The `%02x` rendering contains no uppercase characters. -/
theorem pad2x_lower (n : Nat) : (pad2x n).map pyToLower = pad2x n := by
  unfold pad2x hexRepr
  by_cases h : (hexReprF (n + 1) n).length < 2 <;>
    simp [h, hexReprF_lower, show pyToLower '0' = '0' from rfl]

/-- A `#rrggbb` string built from `%02x` pieces is lowercase. -/
theorem hash_pad2x_lower (a b c : Nat) :
    (('#' :: (pad2x a ++ pad2x b ++ pad2x c)).map pyToLower) =
      '#' :: (pad2x a ++ pad2x b ++ pad2x c) := by
  simp [show pyToLower '#' = '#' from rfl, pad2x_lower]

/-- The hex-literal normalisation produces lowercase output. -/
theorem normalizeHexMatch_lower (m : List Char) :
    (normalizeHexMatch m).map pyToLower = normalizeHexMatch m := by
  unfold normalizeHexMatch
  exact map_pyToLower_idem _

/-- Deduplication only keeps input elements. -/
theorem dedupColorsAux_mem {x : String} :
    ∀ (seen l : List String), x ∈ dedupColorsAux seen l → x ∈ l := by
  intro seen l
  induction l generalizing seen with
  | nil => simp [dedupColorsAux]
  | cons y ys ih =>
    rw [dedupColorsAux]
    split
    · exact fun h => List.mem_cons_of_mem _ (ih _ h)
    · intro h
      rcases List.mem_cons.1 h with h | h
      · exact h ▸ List.mem_cons_self _ _
      · exact List.mem_cons_of_mem _ (ih _ h)

/-- Deduplication never emits an element of the `seen` accumulator. -/
theorem dedupColorsAux_not_seen {x : String} :
    ∀ (seen l : List String), x ∈ dedupColorsAux seen l → x ∉ seen := by
  intro seen l
  induction l generalizing seen with
  | nil => simp [dedupColorsAux]
  | cons y ys ih =>
    rw [dedupColorsAux]
    split
    · exact ih _
    · intro h hx
      rcases List.mem_cons.1 h with h | h
      · subst h; exact (by assumption : ¬x ∈ seen) hx
      · exact ih _ h (List.mem_cons_of_mem _ hx)

/-- Deduplication produces a duplicate-free list. -/
theorem dedupColorsAux_nodup : ∀ (seen l : List String), (dedupColorsAux seen l).Nodup := by
  intro seen l
  induction l generalizing seen with
  | nil => simp [dedupColorsAux]
  | cons y ys ih =>
    rw [dedupColorsAux]
    split
    · exact ih _
    · exact List.nodup_cons.2
        ⟨fun h => dedupColorsAux_not_seen _ _ h (List.mem_cons_self _ _), ih _⟩

/-- Claim C1, counterexample: the 8-digit hex literal `#AABBCCDD` is matched
by the colour scan but only lowercased, never reduced to six digits, so the
extracted colour `#aabbccdd` is not of the claimed `#` + six lowercase hex
digit form (the alpha channel is retained). -/
theorem C1_extract_colors_cex :
    extract_colors "#AABBCCDD" [] = ["#aabbccdd"] ∧
      isSixDigitLowerHex "#aabbccdd" = false := by
  decide

/-- Claim C1, amended: for every raw style text and image-colour input,
`extract_colors` returns at most ten pairwise-distinct lowercase strings
(merge order hex, then rgb, then image, deduplicated keeping the first
occurrence); 3-digit hex literals are expanded to six digits, but 4-, 7-
and 8-digit literals are only lowercased, keeping any alpha digits. -/
theorem C1_extract_colors_amended (css : String) (img : List (Nat × Nat × Nat)) :
    (extract_colors css img).length ≤ 10 ∧ (extract_colors css img).Nodup ∧
      (extract_colors css img).all isLowerInvariant = true := by
  unfold extract_colors
  refine ⟨?_, ?_, ?_⟩
  · exact List.length_take_le 10 _
  · exact ((List.take_sublist _ _).nodup (dedupColorsAux_nodup _ _))
  · rw [List.all_eq_true]
    intro s hs
    have hmem := dedupColorsAux_mem _ _ (List.mem_of_mem_take hs)
    rw [isLowerInvariant, beq_iff_eq]
    rcases List.mem_append.1 hmem with h | himg
    · rcases List.mem_append.1 h with hhex | hrgb
      · obtain ⟨m, _, rfl⟩ := List.mem_map.1 hhex
        exact normalizeHexMatch_lower m
      · obtain ⟨m, _, hm⟩ := List.mem_filterMap.1 hrgb
        unfold rgbLiteralToHex at hm
        split at hm
        · cases hm
          exact hash_pad2x_lower _ _ _
        · cases hm
    · obtain ⟨t, _, rfl⟩ := List.mem_map.1 himg
      exact hash_pad2x_lower _ _ _

/-- Claim C2 (code bug): dispatching the modern-css format for a profile
with empty raw style text raises `KeyError('container_queries')` instead of
returning a string: the guard at line 430 replaces the feature dict by `{}`
and line 608 then indexes it unconditionally. -/
theorem C2_modern_css_keyerror :
    generate_template emptyCssProfile "modern-css" "2025-01-01 00:00:00" none =
      .error "KeyError: 'container_queries'" := rfl

/-- Claim C3, counterexample: `int()` truncates, so lightening black by 0.5
gives channel `int(127.5) = 127 = 0x7f`, not the claimed `0x80`. -/
theorem C3_lighten_half_cex :
    lighten_color "#000000" (1/2) = "#7f7f7f" ∧ ("#7f7f7f" : String) ≠ "#808080" := by
  decide

/-- Claim C3, amended: lightening `#000000` and darkening `#ffffff` by 0.5
both truncate 127.5 down and return `#7f7f7f` (rounding is consistent in
both directions, but it is truncation, not rounding to nearest). -/
theorem C3_lighten_darken_amended :
    lighten_color "#000000" (1/2) = "#7f7f7f" ∧ darken_color "#ffffff" (1/2) = "#7f7f7f" := by
  decide

/-- Claim C5, counterexample: on a non-decodable input the helpers return
the input with its leading `#` stripped (the local was rebound before the
failing conversion), not the original string. -/
theorem C5_strip_on_failure_cex :
    lighten_color "#zz" (1/2) = "zz" ∧ ("zz" : String) ≠ "#zz" := by decide

/-- Claim C5, amended: for every non-decodable input and every ratio, the
lighten and darken helpers return the input with all leading `#` characters
removed and the rest unchanged. -/
theorem C5_strip_on_failure_amended (s : String) (amount : ℚ)
    (h : lightenDecode s = none) :
    lighten_color s amount = String.mk (s.data.dropWhile (· == '#')) ∧
      darken_color s amount = String.mk (s.data.dropWhile (· == '#')) := by
  refine ⟨?_, ?_⟩ <;> simp only [lighten_color, darken_color, h]

/-- Claim C5, witness: the amended statement applied at `"#zz"`, ratio 0. -/
theorem C5_strip_on_failure_witness :
    lighten_color "#zz" 0 = String.mk ("#zz".data.dropWhile (· == '#')) ∧
      darken_color "#zz" 0 = String.mk ("#zz".data.dropWhile (· == '#')) :=
  C5_strip_on_failure_amended "#zz" 0 (by decide)

/-- Claim C7: a profile with exactly one colour produces exactly one entry
in the framework-config colour section: the `primary` ramp with keys
50-900, shades 50/100/200/300 lightened by 0.4/0.3/0.2/0.1, 400 and 500
the base colour, and 600/700/800/900 darkened by 0.1/0.2/0.3/0.4. -/
theorem C7_tailwind_primary_ramp (c : String) :
    tailwind_colors [c] =
      [("primary", .ramp
        [("50", lighten_color c (4/10)),
         ("100", lighten_color c (3/10)),
         ("200", lighten_color c (2/10)),
         ("300", lighten_color c (1/10)),
         ("400", c),
         ("500", c),
         ("600", darken_color c (1/10)),
         ("700", darken_color c (2/10)),
         ("800", darken_color c (3/10)),
         ("900", darken_color c (4/10))])] := rfl

/-- Claim C9: rendering is a pure function of the profile, the format, the
timestamp reading and the template assets, so rendering the same profile
twice with the timestamp held constant yields byte-identical output. -/
theorem C9_render_deterministic (data : WebStyleData) (fmt now : String)
    (templates : Option (String × String × String)) :
    generate_template data fmt now templates = generate_template data fmt now templates := rfl

/-- Claim C10: feature detection returns exactly the six keys in their
declaration order, each bound to a list, and the `custom_properties` entry
is the empty list for every input. -/
theorem C10_features_shape (css : String) :
    (detect_modern_css_features css).map Prod.fst =
      ["container_queries", "css_nesting", "has_selectors", "custom_properties",
       "fluid_typography", "color_functions"] ∧
    ∀ l, ("custom_properties", l) ∈ detect_modern_css_features css → l = [] := by
  refine ⟨rfl, ?_⟩
  intro l h
  simp only [detect_modern_css_features, List.mem_cons, List.not_mem_nil, or_false,
    Prod.mk.injEq] at h
  rcases h with ⟨h1, h2⟩|⟨h1, h2⟩|⟨h1, h2⟩|⟨h1, h2⟩|⟨h1, h2⟩|⟨h1, h2⟩
  all_goals first | (exact absurd h1 (by decide)) | (exact h2)

/-- Font deduplication only keeps input elements. -/
theorem dedupFontsAux_mem {x : String} :
    ∀ (seen l : List String), x ∈ dedupFontsAux seen l → x ∈ l := by
  intro seen l
  induction l generalizing seen with
  | nil => simp [dedupFontsAux]
  | cons y ys ih =>
    rw [dedupFontsAux]
    split
    · intro h
      rcases List.mem_cons.1 h with h | h
      · exact h ▸ List.mem_cons_self _ _
      · exact List.mem_cons_of_mem _ (ih _ h)
    · exact fun h => List.mem_cons_of_mem _ (ih _ h)

/-- Font deduplication never emits an element of the `seen` accumulator. -/
theorem dedupFontsAux_not_seen {x : String} :
    ∀ (seen l : List String), x ∈ dedupFontsAux seen l → x ∉ seen := by
  intro seen l
  induction l generalizing seen with
  | nil => simp [dedupFontsAux]
  | cons y ys ih =>
    rw [dedupFontsAux]
    split
    · intro h hx
      rcases List.mem_cons.1 h with h | h
      · subst h; exact (by assumption : _ ≠ "" ∧ x ∉ seen).2 hx
      · exact ih _ h (List.mem_cons_of_mem _ hx)
    · exact ih _

/-- Font deduplication produces a duplicate-free list. -/
theorem dedupFontsAux_nodup : ∀ (seen l : List String), (dedupFontsAux seen l).Nodup := by
  intro seen l
  induction l generalizing seen with
  | nil => simp [dedupFontsAux]
  | cons y ys ih =>
    rw [dedupFontsAux]
    split
    · exact List.nodup_cons.2
        ⟨fun h => dedupFontsAux_not_seen _ _ h (List.mem_cons_self _ _), ih _⟩
    · exact ih _

/-- Font deduplication drops empty tokens. -/
theorem dedupFontsAux_ne_empty {x : String} :
    ∀ (seen l : List String), x ∈ dedupFontsAux seen l → x ≠ "" := by
  intro seen l
  induction l generalizing seen with
  | nil => simp [dedupFontsAux]
  | cons y ys ih =>
    rw [dedupFontsAux]
    split
    · intro h
      rcases List.mem_cons.1 h with h | h
      · subst h; exact (by assumption : x ≠ "" ∧ x ∉ seen).1
      · exact ih _ h
    · exact ih _

/-- Claim C6: on the spec's example input the extracted font list is
exactly `["Helvetica Neue", "Arial", "sans-serif"]`, and on every input the
list of split, trimmed, unquoted tokens is deduplicated case-sensitively
into at most five pairwise-distinct non-empty entries. -/
theorem C6_extract_fonts :
    extract_fonts "div\x7bfont-family: 'Helvetica Neue', Arial, sans-serif;\x7d" =
      ["Helvetica Neue", "Arial", "sans-serif"] ∧
    ∀ css : String, (extract_fonts css).length ≤ 5 ∧ (extract_fonts css).Nodup ∧
      (extract_fonts css).all (fun f => f != "") = true := by
  refine ⟨by decide, fun css => ⟨?_, ?_, ?_⟩⟩
  · exact List.length_take_le 5 _
  · exact ((List.take_sublist _ _).nodup (dedupFontsAux_nodup _ _))
  · rw [List.all_eq_true]
    intro f hf
    have := dedupFontsAux_ne_empty _ _ (List.mem_of_mem_take hf)
    simpa [bne_iff_ne] using this

/-- Claim C8, counterexample: the design-tokens generator substring-matches
every keyword, while the framework-config and plain-style-sheet generators
only substring-match `mono` and require exact membership for the family
names, so they disagree on `"Courier New"`. -/
theorem C8_mono_heuristics_cex :
    dt_mono_heuristic "Courier New" = true ∧ tw_mono_heuristic "Courier New" = false ∧
      css_mono_heuristic "Courier New" = false := by decide

/-- Claim C8, amended: the three monospace heuristics form an inclusion
chain rather than an agreement: every font classified monospace by the
plain-style-sheet generator is classified monospace by the framework-config
generator, and every one of those is classified monospace by the
design-tokens generator (the converses fail, e.g. on `"Menlo"` and
`"Courier New"`). -/
theorem C8_mono_heuristics_amended (f : String) :
    (css_mono_heuristic f = true → tw_mono_heuristic f = true) ∧
      (tw_mono_heuristic f = true → dt_mono_heuristic f = true) := by
  constructor
  · intro h
    unfold css_mono_heuristic at h
    unfold tw_mono_heuristic
    rw [Bool.or_eq_true] at h ⊢
    rcases h with h | h
    · exact Or.inl h
    · refine Or.inr ?_
      have hm := List.mem_of_elem_eq_true h
      simp only [List.mem_cons, List.not_mem_nil, or_false] at hm
      apply List.elem_eq_true_of_mem
      rcases hm with h1 | h1 <;> rw [h1] <;> decide
  · intro h
    unfold tw_mono_heuristic at h
    unfold dt_mono_heuristic
    rw [Bool.or_eq_true] at h
    rcases h with h | h
    · simp [List.any_cons, h]
    · have hm := List.mem_of_elem_eq_true h
      simp only [List.mem_cons, List.not_mem_nil, or_false] at hm
      rcases hm with h1 | h1 | h1 <;> rw [h1] <;> decide

/-- Claim C8, witness: the amended inclusions applied at `"Consolas"` and
`"Menlo"`. -/
theorem C8_mono_heuristics_witness :
    tw_mono_heuristic "Consolas" = true ∧ dt_mono_heuristic "Menlo" = true :=
  ⟨(C8_mono_heuristics_amended "Consolas").1 (by decide),
   (C8_mono_heuristics_amended "Menlo").2 (by decide)⟩

/-- Any string `oklch( ++ rest` with a closing parenthesis in `rest` has
the oklch shape. -/
theorem oklchShaped_append (rest : String) (hc : ')' ∈ rest.data) :
    oklchShaped ("oklch(" ++ rest) = true := by
  unfold oklchShaped
  rw [Bool.and_eq_true]
  refine ⟨?_, ?_⟩
  · rw [String.data_append, List.take_left' (by decide)]
    exact beq_self_eq_true _
  · rw [String.data_append]
    simp only [List.contains]
    exact List.elem_eq_true_of_mem (List.mem_append_right _ hc)

/-- Claim C4: `hex_to_oklch_string` is total and always produces a string
of the `oklch(...)` shape; for an input whose decode succeeds and whose
HSL decomposition is defined it formats lightness times 100 to one
decimal, saturation times 0.37 to three decimals and hue times 360 to one
decimal; and on any decode failure it returns the fixed fallback string
annotated with the raw input. -/
theorem C4_hex_to_oklch (s : String) :
    oklchShaped (hex_to_oklch_string s) = true ∧
    (∀ (r g b : Int) (h l sat : ℚ), hex_to_rgb s = some (r, g, b) →
      rgb_to_hls ((r : ℚ)/255) ((g : ℚ)/255) ((b : ℚ)/255) = some (h, l, sat) →
      hex_to_oklch_string s =
        "oklch(" ++ formatFixed (l * 100) 1 ++ "% " ++ formatFixed (sat * (37/100)) 3 ++
          " " ++ formatFixed (h * 360) 1 ++ "deg)") ∧
    (hex_to_rgb s = none →
      hex_to_oklch_string s = "oklch(50% 0.1 0deg)  /* fallback for " ++ s ++ " */") := by
  refine ⟨?_, ?_, ?_⟩
  · unfold hex_to_oklch_string
    have hfb : ("oklch(50% 0.1 0deg)  /* fallback for " ++ s ++ " */") =
        "oklch(" ++ ("50% 0.1 0deg)  /* fallback for " ++ (s ++ " */")) := by
      rw [show ("oklch(50% 0.1 0deg)  /* fallback for " : String) =
        "oklch(" ++ "50% 0.1 0deg)  /* fallback for " from rfl,
        String.append_assoc, String.append_assoc]
    split
    · rw [hfb]
      apply oklchShaped_append
      rw [String.data_append]
      exact List.mem_append_left _ (by decide)
    · split
      · rw [hfb]
        apply oklchShaped_append
        rw [String.data_append]
        exact List.mem_append_left _ (by decide)
      · rw [String.append_assoc, String.append_assoc, String.append_assoc,
          String.append_assoc, String.append_assoc]
        apply oklchShaped_append
        simp only [String.data_append]
        refine List.mem_append_right _ (List.mem_append_right _ (List.mem_append_right _
          (List.mem_append_right _ (List.mem_append_right _ (by decide)))))
  · intro r g b h l sat hdec hhls
    simp only [hex_to_oklch_string, rgb_to_oklch, hdec, hhls, Option.map_some']
  · intro hdec
    simp only [hex_to_oklch_string, hdec]

/-- Claim C4, witness: `#ff0000` decodes to `(255, 0, 0)` with HLS
`(0, 1/2, 1)` and formats through the claimed formula; `"zz"` fails to
decode and yields the annotated fallback. -/
theorem C4_hex_to_oklch_witness :
    hex_to_oklch_string "#ff0000" =
      "oklch(" ++ formatFixed ((1/2 : ℚ) * 100) 1 ++ "% " ++
        formatFixed ((1 : ℚ) * (37/100)) 3 ++ " " ++ formatFixed ((0 : ℚ) * 360) 1 ++
        "deg)" ∧
    hex_to_oklch_string "zz" = "oklch(50% 0.1 0deg)  /* fallback for " ++ "zz" ++ " */" :=
  ⟨(C4_hex_to_oklch "#ff0000").2.1 255 0 0 0 (1/2) 1 (by decide) (by decide),
   (C4_hex_to_oklch "zz").2.2 (by decide)⟩

/-- Claim C10, witness: the shape statement applied at a concrete input
containing a colour-function match. -/
theorem C10_features_shape_witness :
    (detect_modern_css_features "a \x7b color: oklch(1 2 3) \x7d").map Prod.fst =
      ["container_queries", "css_nesting", "has_selectors", "custom_properties",
       "fluid_typography", "color_functions"] ∧ ([] : List String) = [] :=
  ⟨(C10_features_shape "a \x7b color: oklch(1 2 3) \x7d").1,
   (C10_features_shape "a \x7b color: oklch(1 2 3) \x7d").2 [] (by decide)⟩

end StyleExtractor
